import Mathlib

/-!
# Credit-approval backend — verification of the scoring / eligibility engine

Shallow embedding of the pure decision core of `src/credit_system/utils.py`
(`calculate_credit_score`, `calculate_monthly_installment`,
`check_loan_eligibility`) together with the data model of
`src/credit_system/models.py` (`Customer`, `Loan`).

Modelling conventions:
* Python `Decimal` values (monetary amounts, rates) are modelled as exact
  rationals `ℚ`; the final `quantize(Decimal('0.01'))` is modelled faithfully
  as round-to-nearest, ties-to-even at 2 decimal places (Python's default
  `ROUND_HALF_EVEN` context).
* Python `int` is modelled as `ℤ`; Python `int(x)` applied to a ratio is
  truncation toward zero (`ratTrunc`).  Python float true division in the
  on-time component is modelled as exact rational division.
* `date.today()` is an explicit `today : CalDate` parameter; Django's
  `end_date__gte=date.today()` filter is the calendar-order comparison
  `dateLe today l.end_date`, and `__year` is the `year` field.
* The ORM lookup `Customer.objects.get` is an `Option Customer` argument:
  `none` is the `Customer.DoesNotExist` branch.
* The Python result dict of `check_loan_eligibility` sometimes lacks the
  `credit_score` key (the two early returns); the record therefore carries
  `credit_score : Option ℤ`, with `none` for "key absent".
-/

/-- A calendar date (year, month, day), ordered lexicographically.  The
engine only compares dates and reads `.year`, so this structure captures
everything `datetime.date` provides to it. -/
structure CalDate where
  year : Int
  month : Int
  day : Int
deriving DecidableEq

/-- Calendar order `a <= b` (`dateLe a b`), lexicographic on
(year, month, day); models Python `date` comparison. -/
def dateLe (a b : CalDate) : Bool :=
  (a.year < b.year) ||
    (a.year == b.year &&
      ((a.month < b.month) || (a.month == b.month && a.day ≤ b.day)))

/-- Model of `Customer` (models.py): the fields the decision engine reads.
`monthly_salary` and `approved_limit` are `DecimalField`s, modelled as `ℚ`. -/
structure Customer where
  monthly_salary : ℚ
  approved_limit : ℚ
deriving DecidableEq

/-- Model of `Loan` (models.py): the fields the decision engine reads. -/
structure Loan where
  loan_amount : ℚ
  tenure : ℤ
  interest_rate : ℚ
  monthly_repayment : ℚ
  emis_paid_on_time : ℤ
  start_date : CalDate
  end_date : CalDate
deriving DecidableEq

/-- Python `int(x)`: truncation of a rational toward zero (`Int.tdiv` is
T-division, which truncates toward zero). -/
def ratTrunc (q : ℚ) : ℤ := q.num.tdiv (q.den : ℤ)

/-- Round a rational to the nearest integer, ties to even — the rounding
Python's default `Decimal` context (`ROUND_HALF_EVEN`) applies in
`quantize`. -/
def roundHalfEven (q : ℚ) : ℤ :=
  if q - ⌊q⌋ < 1 / 2 then ⌊q⌋
  else if 1 / 2 < q - ⌊q⌋ then ⌊q⌋ + 1
  else if 2 ∣ ⌊q⌋ then ⌊q⌋ else ⌊q⌋ + 1

/-- Model of `emi.quantize(Decimal('0.01'))`: round to 2 decimal places,
ties to even. -/
def quantize2 (q : ℚ) : ℚ := (roundHalfEven (100 * q) : ℚ) / 100

/-- Model of `calculate_monthly_installment(loan_amount, interest_rate, tenure)`
(utils.py lines 95-126): EMI by the compound-interest formula
`P * r * (1+r)^n / ((1+r)^n - 1)` with monthly rate `r = annual/12/100`,
quantized to 2 decimals; `0.00` for non-positive tenure; `P/n` (unquantized)
when the rate is zero. -/
def calculate_monthly_installment (loan_amount interest_rate : ℚ)
    (tenure : ℤ) : ℚ :=
  if tenure ≤ 0 then 0
  else
    let P := loan_amount
    let n := tenure.toNat
    let r := interest_rate / 12 / 100
    if r = 0 then P / (n : ℚ)
    else
      let power := (1 + r) ^ n
      quantize2 (P * r * power / (power - 1))

/-- Component 1 of the score (utils.py lines 37-46): on-time payment
share, `int(payment_ratio * 40)` when total EMIs are positive, else 0. -/
def onTimeComponent (loans : List Loan) : ℤ :=
  let total_emis := (loans.map Loan.tenure).sum
  let total_emis_paid_on_time := (loans.map Loan.emis_paid_on_time).sum
  if 0 < total_emis then
    ratTrunc ((total_emis_paid_on_time : ℚ) / (total_emis : ℚ) * 40)
  else 0

/-- Component 2 of the score (utils.py lines 48-61): loan-count table. -/
def loanCountComponent (total_loans : ℕ) : ℤ :=
  if total_loans = 0 then 20
  else if total_loans = 1 then 18
  else if total_loans = 2 then 15
  else if total_loans = 3 then 12
  else if total_loans ≤ 5 then 8
  else 5

/-- Component 3 of the score (utils.py lines 63-76): count of loans whose
start or end date falls in the current calendar year, then the table. -/
def recentActivityComponent (today : CalDate) (loans : List Loan) : ℤ :=
  let current_year_loans :=
    (loans.filter fun l =>
      l.start_date.year == today.year || l.end_date.year == today.year).length
  if current_year_loans = 0 then 20
  else if current_year_loans = 1 then 15
  else if current_year_loans = 2 then 10
  else 5

/-- Component 4 of the score (utils.py lines 78-89): utilization of the
approved limit by current loans, banded; contributes 0 when the approved
limit is not positive. -/
def utilizationComponent (customer : Customer)
    (total_current_loan_amount : ℚ) : ℤ :=
  if 0 < customer.approved_limit then
    if total_current_loan_amount / customer.approved_limit ≤ 3 / 10 then 20
    else if total_current_loan_amount / customer.approved_limit ≤ 5 / 10 then 15
    else if total_current_loan_amount / customer.approved_limit ≤ 7 / 10 then 10
    else 5
  else 0

/-- Model of `calculate_credit_score(customer)` (utils.py lines 8-92), with the
customer's loan rows and `date.today()` made explicit parameters.
Order of the source: empty history → 50; active-loan total above the
approved limit → 0; otherwise the four components, clamped to [0, 100]. -/
def calculate_credit_score (today : CalDate) (customer : Customer)
    (all_loans : List Loan) : ℤ :=
  if all_loans.isEmpty then 50
  else
    let current_loans := all_loans.filter fun l => dateLe today l.end_date
    let total_current_loan_amount := (current_loans.map Loan.loan_amount).sum
    if customer.approved_limit < total_current_loan_amount then 0
    else
      let score : ℤ :=
        onTimeComponent all_loans
          + loanCountComponent all_loans.length
          + recentActivityComponent today all_loans
          + utilizationComponent customer total_current_loan_amount
      min (max score 0) 100

/-- Result record of `check_loan_eligibility` (utils.py lines 138-214).
The Python function returns a dict; its two early returns omit the
`credit_score` key, hence `credit_score : Option ℤ`. -/
structure EligibilityResult where
  approval : Bool
  interest_rate : ℚ
  corrected_interest_rate : ℚ
  monthly_installment : ℚ
  message : String
  credit_score : Option ℤ
deriving DecidableEq

/-- The score-band decision (utils.py lines 176-197):
(approval, corrected rate, message) as a function of the credit score and
the requested rate. -/
def bandDecision (credit_score : ℤ) (interest_rate : ℚ) :
    Bool × ℚ × String :=
  if 50 < credit_score then (true, interest_rate, "")
  else if 30 < credit_score ∧ credit_score ≤ 50 then
    if 12 ≤ interest_rate then (true, interest_rate, "")
    else (true, 12, "")
  else if 10 < credit_score ∧ credit_score ≤ 30 then
    if 16 ≤ interest_rate then (true, interest_rate, "")
    else (true, 16, "")
  else (false, interest_rate, "Credit score too low for loan approval")

/-- Model of `check_loan_eligibility(customer_id, loan_amount, interest_rate, tenure)`
(utils.py lines 129-214).  The ORM lookup is the `Option Customer`
argument (`none` = `Customer.DoesNotExist`), the customer's loan rows and
`date.today()` are explicit. -/
def check_loan_eligibility (today : CalDate) (customer_lookup : Option Customer)
    (loans : List Loan) (loan_amount interest_rate : ℚ) (tenure : ℤ) :
    EligibilityResult :=
  match customer_lookup with
  | none =>
    { approval := false
      interest_rate := interest_rate
      corrected_interest_rate := interest_rate
      monthly_installment := 0
      message := "Customer not found"
      credit_score := none }
  | some customer =>
    let credit_score := calculate_credit_score today customer loans
    let monthly_installment :=
      calculate_monthly_installment loan_amount interest_rate tenure
    let current_loans := loans.filter fun l => dateLe today l.end_date
    let total_current_emi := (current_loans.map Loan.monthly_repayment).sum
    let total_emi_with_new_loan := total_current_emi + monthly_installment
    let max_allowed_emi := customer.monthly_salary * (5 / 10 : ℚ)
    if max_allowed_emi < total_emi_with_new_loan then
      { approval := false
        interest_rate := interest_rate
        corrected_interest_rate := interest_rate
        monthly_installment := monthly_installment
        message := "Total EMI exceeds 50% of monthly salary"
        credit_score := none }
    else
      let d := bandDecision credit_score interest_rate
      let corrected_interest_rate := d.2.1
      let final_installment :=
        if corrected_interest_rate ≠ interest_rate then
          calculate_monthly_installment loan_amount corrected_interest_rate
            tenure
        else monthly_installment
      { approval := d.1
        interest_rate := interest_rate
        corrected_interest_rate := corrected_interest_rate
        monthly_installment := final_installment
        message := d.2.2
        credit_score := some credit_score }

/-- Model of `get_current_emi_sum(customer)` (utils.py lines 217-229): sum of
monthly repayments over the customer's active loans. -/
def get_current_emi_sum (today : CalDate) (loans : List Loan) : ℚ :=
  ((loans.filter fun l => dateLe today l.end_date).map
    Loan.monthly_repayment).sum

/-! ## Helper lemmas -/

/-- Rounding half-to-even is monotone. -/
theorem roundHalfEven_mono {x y : ℚ} (h : x ≤ y) :
    roundHalfEven x ≤ roundHalfEven y := by
  have hf : ⌊x⌋ ≤ ⌊y⌋ := Int.floor_le_floor h
  unfold roundHalfEven
  rcases lt_or_eq_of_le hf with hlt | heq
  · split_ifs <;> omega
  · have hq : (⌊x⌋ : ℚ) = (⌊y⌋ : ℚ) := by exact_mod_cast heq
    have hfr : x - ⌊x⌋ ≤ y - ⌊y⌋ := by rw [← hq]; linarith
    split_ifs <;> first | omega | (exfalso; linarith)

/-- Quantization to 2 decimal places is monotone. -/
theorem quantize2_mono {x y : ℚ} (h : x ≤ y) : quantize2 x ≤ quantize2 y := by
  unfold quantize2
  have := roundHalfEven_mono (show 100 * x ≤ 100 * y by linarith)
  have hc : ((roundHalfEven (100 * x) : ℚ)) ≤ (roundHalfEven (100 * y) : ℚ) := by
    exact_mod_cast this
  linarith

/-- Python `int` truncation of a nonnegative rational is nonnegative. -/
theorem ratTrunc_nonneg {q : ℚ} (h : 0 ≤ q) : 0 ≤ ratTrunc q := by
  unfold ratTrunc
  exact Int.tdiv_nonneg (Rat.num_nonneg.mpr h) (Int.ofNat_nonneg q.den)

/-- The on-time component is nonnegative when every loan's on-time count is
nonnegative (the data-model invariant `MinValueValidator(0)`). -/
theorem onTimeComponent_nonneg {loans : List Loan}
    (h : ∀ l ∈ loans, 0 ≤ l.emis_paid_on_time) :
    0 ≤ onTimeComponent loans := by
  simp only [onTimeComponent]
  split_ifs with ht
  · apply ratTrunc_nonneg
    have hp : (0 : ℤ) ≤ (loans.map Loan.emis_paid_on_time).sum := by
      apply List.sum_nonneg
      intro x hx
      obtain ⟨l, hl, rfl⟩ := List.mem_map.mp hx
      exact h l hl
    have hp' : (0 : ℚ) ≤ ((loans.map Loan.emis_paid_on_time).sum : ℚ) := by
      exact_mod_cast hp
    have ht' : (0 : ℚ) ≤ ((loans.map Loan.tenure).sum : ℚ) := by
      exact_mod_cast ht.le
    positivity
  · exact le_refl 0

/-- The loan-count component is at least 5. -/
theorem loanCountComponent_ge_five (n : ℕ) : 5 ≤ loanCountComponent n := by
  unfold loanCountComponent
  split_ifs <;> norm_num

/-- The recent-activity component is at least 5. -/
theorem recentActivityComponent_ge_five (today : CalDate) (loans : List Loan) :
    5 ≤ recentActivityComponent today loans := by
  simp only [recentActivityComponent]
  split_ifs <;> norm_num

/-- The utilization component is nonnegative. -/
theorem utilizationComponent_nonneg (c : Customer) (t : ℚ) :
    0 ≤ utilizationComponent c t := by
  unfold utilizationComponent
  split_ifs <;> norm_num

/-! ## Claim theorems -/

/-- C9: a customer whose loan history is empty scores exactly 50, for every
customer (any salary, any approved limit) and every current date. -/
theorem empty_history_score_fifty (today : CalDate) (customer : Customer) :
    calculate_credit_score today customer [] = 50 := rfl

/-- C8: when the customer lookup fails, `check_loan_eligibility` still
returns a result, with approval `false`, corrected rate equal to the
requested rate, installment `0.00` and message `"Customer not found"`. -/
theorem customer_not_found_result (today : CalDate) (loans : List Loan)
    (loan_amount interest_rate : ℚ) (tenure : ℤ) :
    (check_loan_eligibility today none loans loan_amount interest_rate
        tenure).approval = false ∧
    (check_loan_eligibility today none loans loan_amount interest_rate
        tenure).corrected_interest_rate = interest_rate ∧
    (check_loan_eligibility today none loans loan_amount interest_rate
        tenure).monthly_installment = 0 ∧
    (check_loan_eligibility today none loans loan_amount interest_rate
        tenure).message = "Customer not found" :=
  ⟨rfl, rfl, rfl, rfl⟩

/-- C4: the credit score is an integer in [0, 100] for every customer, every
loan history and every current date. -/
theorem credit_score_in_range (today : CalDate) (customer : Customer)
    (loans : List Loan) :
    0 ≤ calculate_credit_score today customer loans ∧
      calculate_credit_score today customer loans ≤ 100 := by
  simp only [calculate_credit_score]
  split_ifs
  · norm_num
  · norm_num
  · exact ⟨le_min (le_max_right _ _) (by norm_num), min_le_right _ _⟩

/-- C2: for a non-empty loan history, if the total `loan_amount` of active
loans (end date ≥ today) strictly exceeds the approved limit, the score is
0, bypassing all scoring components. -/
theorem overlimit_score_zero (today : CalDate) (customer : Customer)
    (loans : List Loan) (hne : loans ≠ [])
    (hover : customer.approved_limit <
      ((loans.filter fun l => dateLe today l.end_date).map
        Loan.loan_amount).sum) :
    calculate_credit_score today customer loans = 0 := by
  simp only [calculate_credit_score]
  split_ifs with h1
  · exact absurd (List.isEmpty_iff.mp h1) hne
  · rfl

/-- Witness for C2: a customer with approved limit 100 and one active loan
of amount 200 scores 0. -/
theorem overlimit_score_zero_witness :
    ([(⟨200, 12, 10, 20, 5, ⟨2023, 1, 1⟩, ⟨2025, 1, 1⟩⟩ : Loan)] ≠ []) ∧
    ((⟨1000, 100⟩ : Customer).approved_limit <
      ((([(⟨200, 12, 10, 20, 5, ⟨2023, 1, 1⟩, ⟨2025, 1, 1⟩⟩ : Loan)].filter
        fun l => dateLe ⟨2024, 1, 1⟩ l.end_date).map Loan.loan_amount).sum)) ∧
    calculate_credit_score ⟨2024, 1, 1⟩ ⟨1000, 100⟩
      [⟨200, 12, 10, 20, 5, ⟨2023, 1, 1⟩, ⟨2025, 1, 1⟩⟩] = 0 := by
  have h1 : [(⟨200, 12, 10, 20, 5, ⟨2023, 1, 1⟩, ⟨2025, 1, 1⟩⟩ : Loan)] ≠ [] := by
    simp
  have h2 : ((⟨1000, 100⟩ : Customer).approved_limit <
      ((([(⟨200, 12, 10, 20, 5, ⟨2023, 1, 1⟩, ⟨2025, 1, 1⟩⟩ : Loan)].filter
        fun l => dateLe ⟨2024, 1, 1⟩ l.end_date).map Loan.loan_amount).sum)) := by
    norm_num [dateLe, List.filter]
  exact ⟨h1, h2, overlimit_score_zero _ _ _ h1 h2⟩

/-- C1: whenever the sum of monthly repayments over the customer's active
loans plus the installment computed for the requested loan strictly exceeds
half the monthly salary, the decision is a rejection with message
`"Total EMI exceeds 50% of monthly salary"`, the corrected rate equal to the
requested rate and the computed installment still reported — whatever the
credit score is. -/
theorem emi_rule_rejects (today : CalDate) (customer : Customer)
    (loans : List Loan) (loan_amount interest_rate : ℚ) (tenure : ℤ)
    (h : customer.monthly_salary * (5 / 10 : ℚ) <
      ((loans.filter fun l => dateLe today l.end_date).map
        Loan.monthly_repayment).sum
        + calculate_monthly_installment loan_amount interest_rate tenure) :
    (check_loan_eligibility today (some customer) loans loan_amount
        interest_rate tenure).approval = false ∧
    (check_loan_eligibility today (some customer) loans loan_amount
        interest_rate tenure).message =
      "Total EMI exceeds 50% of monthly salary" ∧
    (check_loan_eligibility today (some customer) loans loan_amount
        interest_rate tenure).corrected_interest_rate = interest_rate ∧
    (check_loan_eligibility today (some customer) loans loan_amount
        interest_rate tenure).monthly_installment =
      calculate_monthly_installment loan_amount interest_rate tenure := by
  simp only [check_loan_eligibility]
  split_ifs
  exact ⟨rfl, rfl, rfl, rfl⟩

/-- Witness for C1: salary 100, no active loans, requested loan of 100000
at 12% over 1 month (installment 101000.00) is rejected by the 50% rule. -/
theorem emi_rule_rejects_witness :
    ((⟨100, 1000⟩ : Customer).monthly_salary * (5 / 10 : ℚ) <
      ((([] : List Loan).filter fun l => dateLe ⟨2024, 1, 1⟩ l.end_date).map
        Loan.monthly_repayment).sum
        + calculate_monthly_installment 100000 12 1) ∧
    (check_loan_eligibility ⟨2024, 1, 1⟩ (some ⟨100, 1000⟩) [] 100000 12
        1).approval = false ∧
    (check_loan_eligibility ⟨2024, 1, 1⟩ (some ⟨100, 1000⟩) [] 100000 12
        1).message = "Total EMI exceeds 50% of monthly salary" ∧
    (check_loan_eligibility ⟨2024, 1, 1⟩ (some ⟨100, 1000⟩) [] 100000 12
        1).corrected_interest_rate = 12 ∧
    (check_loan_eligibility ⟨2024, 1, 1⟩ (some ⟨100, 1000⟩) [] 100000 12
        1).monthly_installment = calculate_monthly_installment 100000 12 1 := by
  have h : ((⟨100, 1000⟩ : Customer).monthly_salary * (5 / 10 : ℚ) <
      ((([] : List Loan).filter fun l => dateLe ⟨2024, 1, 1⟩ l.end_date).map
        Loan.monthly_repayment).sum
        + calculate_monthly_installment 100000 12 1) := by
    norm_num [calculate_monthly_installment, quantize2, roundHalfEven,
      List.filter]
  exact ⟨h, emi_rule_rejects _ _ _ _ _ _ h⟩

/-- Counterexample for C7: the customer-not-found result and the 50%-rule
rejection carry no credit score (the Python dict lacks the `credit_score`
key on these two early returns). -/
theorem terminal_results_omit_score :
    (check_loan_eligibility ⟨2024, 1, 1⟩ none [] 100 10 12).credit_score
        = none ∧
    (check_loan_eligibility ⟨2024, 1, 1⟩ (some ⟨100, 1000⟩) [] 100000 12
        1).credit_score = none := by
  constructor
  · rfl
  · simp only [check_loan_eligibility]
    split_ifs with h
    · rfl
    · exfalso
      apply h
      norm_num [calculate_monthly_installment, quantize2, roundHalfEven,
        List.filter]

/-- C7 amended: the result of `check_loan_eligibility` carries the computed
credit score exactly on the non-terminal path — when the customer is found
and the 50%-of-salary rule passes; the two terminal results omit it. -/
theorem credit_score_field_characterization (today : CalDate)
    (customer : Customer) (loans : List Loan)
    (loan_amount interest_rate : ℚ) (tenure : ℤ) :
    (check_loan_eligibility today none loans loan_amount interest_rate
        tenure).credit_score = none ∧
    (check_loan_eligibility today (some customer) loans loan_amount
        interest_rate tenure).credit_score =
      (if customer.monthly_salary * (5 / 10 : ℚ) <
          ((loans.filter fun l => dateLe today l.end_date).map
            Loan.monthly_repayment).sum
            + calculate_monthly_installment loan_amount interest_rate tenure
        then none
        else some (calculate_credit_score today customer loans)) := by
  refine ⟨rfl, ?_⟩
  simp only [check_loan_eligibility]
  split_ifs <;> rfl

/-- C3: with the 50%-of-salary rule passing and a credit score in (30, 50],
the loan is approved; a requested rate below 12.00 is corrected to 12.00 and
the installment is recomputed at 12.00; a requested rate of at least 12.00
is kept, along with the step-3 installment. -/
theorem band_30_50_rate_floor (today : CalDate) (customer : Customer)
    (loans : List Loan) (loan_amount interest_rate : ℚ) (tenure : ℤ)
    (hemi : ¬ (customer.monthly_salary * (5 / 10 : ℚ) <
      ((loans.filter fun l => dateLe today l.end_date).map
        Loan.monthly_repayment).sum
        + calculate_monthly_installment loan_amount interest_rate tenure))
    (hscore : 30 < calculate_credit_score today customer loans ∧
      calculate_credit_score today customer loans ≤ 50) :
    (check_loan_eligibility today (some customer) loans loan_amount
        interest_rate tenure).approval = true ∧
    (interest_rate < 12 →
      (check_loan_eligibility today (some customer) loans loan_amount
          interest_rate tenure).corrected_interest_rate = 12 ∧
      (check_loan_eligibility today (some customer) loans loan_amount
          interest_rate tenure).monthly_installment =
        calculate_monthly_installment loan_amount 12 tenure) ∧
    (12 ≤ interest_rate →
      (check_loan_eligibility today (some customer) loans loan_amount
          interest_rate tenure).corrected_interest_rate = interest_rate ∧
      (check_loan_eligibility today (some customer) loans loan_amount
          interest_rate tenure).monthly_installment =
        calculate_monthly_installment loan_amount interest_rate tenure) := by
  have h50 : ¬ (50 < calculate_credit_score today customer loans) := by
    omega
  simp only [check_loan_eligibility, bandDecision]
  split_ifs with h12 hne hne'
  · simp at hne
  · exact ⟨rfl, fun hlt => absurd h12 (not_le.mpr hlt), fun _ => ⟨rfl, rfl⟩⟩
  · exact ⟨rfl, fun _ => ⟨rfl, rfl⟩, fun hge => absurd hge h12⟩
  · have h12eq : (12 : ℚ) = interest_rate := by simpa using hne'
    exact absurd h12eq.le h12

/-- Witness for C3: a customer scoring 38 (one inactive-on-time-history
loan, 0.8 utilization), requesting 100 at 8% over 1 month: approved, rate
corrected to 12.00, installment recomputed at 12.00. -/
theorem band_30_50_rate_floor_witness :
    (¬ ((⟨1000000, 100⟩ : Customer).monthly_salary * (5 / 10 : ℚ) <
      (([(⟨80, 10, 10, 10, 0, ⟨2023, 6, 1⟩, ⟨2024, 6, 1⟩⟩ : Loan)].filter
        fun l => dateLe ⟨2024, 1, 15⟩ l.end_date).map
          Loan.monthly_repayment).sum
        + calculate_monthly_installment 100 8 1)) ∧
    (30 < calculate_credit_score ⟨2024, 1, 15⟩ ⟨1000000, 100⟩
        [⟨80, 10, 10, 10, 0, ⟨2023, 6, 1⟩, ⟨2024, 6, 1⟩⟩] ∧
      calculate_credit_score ⟨2024, 1, 15⟩ ⟨1000000, 100⟩
        [⟨80, 10, 10, 10, 0, ⟨2023, 6, 1⟩, ⟨2024, 6, 1⟩⟩] ≤ 50) ∧
    (check_loan_eligibility ⟨2024, 1, 15⟩ (some ⟨1000000, 100⟩)
        [⟨80, 10, 10, 10, 0, ⟨2023, 6, 1⟩, ⟨2024, 6, 1⟩⟩] 100 8 1).approval
      = true ∧
    (check_loan_eligibility ⟨2024, 1, 15⟩ (some ⟨1000000, 100⟩)
        [⟨80, 10, 10, 10, 0, ⟨2023, 6, 1⟩, ⟨2024, 6, 1⟩⟩] 100 8
        1).corrected_interest_rate = 12 ∧
    (check_loan_eligibility ⟨2024, 1, 15⟩ (some ⟨1000000, 100⟩)
        [⟨80, 10, 10, 10, 0, ⟨2023, 6, 1⟩, ⟨2024, 6, 1⟩⟩] 100 8
        1).monthly_installment = calculate_monthly_installment 100 12 1 := by
  have hs : calculate_credit_score ⟨2024, 1, 15⟩ ⟨1000000, 100⟩
      [⟨80, 10, 10, 10, 0, ⟨2023, 6, 1⟩, ⟨2024, 6, 1⟩⟩] = 38 := by
    norm_num [calculate_credit_score, onTimeComponent, loanCountComponent,
      recentActivityComponent, utilizationComponent, ratTrunc, dateLe,
      List.filter]
  have hemi : (¬ ((⟨1000000, 100⟩ : Customer).monthly_salary * (5 / 10 : ℚ) <
      (([(⟨80, 10, 10, 10, 0, ⟨2023, 6, 1⟩, ⟨2024, 6, 1⟩⟩ : Loan)].filter
        fun l => dateLe ⟨2024, 1, 15⟩ l.end_date).map
          Loan.monthly_repayment).sum
        + calculate_monthly_installment 100 8 1)) := by
    norm_num [calculate_monthly_installment, quantize2, roundHalfEven,
      dateLe, List.filter]
  have hscore : (30 < calculate_credit_score ⟨2024, 1, 15⟩ ⟨1000000, 100⟩
        [⟨80, 10, 10, 10, 0, ⟨2023, 6, 1⟩, ⟨2024, 6, 1⟩⟩] ∧
      calculate_credit_score ⟨2024, 1, 15⟩ ⟨1000000, 100⟩
        [⟨80, 10, 10, 10, 0, ⟨2023, 6, 1⟩, ⟨2024, 6, 1⟩⟩] ≤ 50) := by
    rw [hs]
    norm_num
  obtain ⟨happ, hcorr, -⟩ :=
    band_30_50_rate_floor ⟨2024, 1, 15⟩ ⟨1000000, 100⟩
      [⟨80, 10, 10, 10, 0, ⟨2023, 6, 1⟩, ⟨2024, 6, 1⟩⟩] 100 8 1 hemi hscore
  exact ⟨hemi, hscore, happ, (hcorr (by norm_num)).1, (hcorr (by norm_num)).2⟩

/-- C10: under the data-model invariant that every loan's on-time count is
nonnegative (`MinValueValidator(0)`), the credit score is never in 1..9: it
is either exactly 0 (critical rule) or at least 10, since the loan-count and
recent-activity components each contribute at least 5. -/
theorem score_never_one_to_nine (today : CalDate) (customer : Customer)
    (loans : List Loan) (h : ∀ l ∈ loans, 0 ≤ l.emis_paid_on_time) :
    calculate_credit_score today customer loans = 0 ∨
      10 ≤ calculate_credit_score today customer loans := by
  simp only [calculate_credit_score]
  split_ifs with h1 h2
  · right; norm_num
  · left; rfl
  · right
    have c1 := onTimeComponent_nonneg h
    have c2 := loanCountComponent_ge_five loans.length
    have c3 := recentActivityComponent_ge_five today loans
    have c4 := utilizationComponent_nonneg customer
      (((loans.filter fun l => dateLe today l.end_date).map
        Loan.loan_amount).sum)
    exact le_min (le_trans (by linarith) (le_max_left _ _)) (by norm_num)

/-- Witness for C10: a customer with one loan with on-time count 0 scores
38, which is 0 or at least 10. -/
theorem score_never_one_to_nine_witness :
    (∀ l ∈ [(⟨80, 10, 10, 10, 0, ⟨2023, 6, 1⟩, ⟨2024, 6, 1⟩⟩ : Loan)],
      0 ≤ l.emis_paid_on_time) ∧
    (calculate_credit_score ⟨2024, 1, 15⟩ ⟨1000000, 100⟩
        [⟨80, 10, 10, 10, 0, ⟨2023, 6, 1⟩, ⟨2024, 6, 1⟩⟩] = 0 ∨
      10 ≤ calculate_credit_score ⟨2024, 1, 15⟩ ⟨1000000, 100⟩
        [⟨80, 10, 10, 10, 0, ⟨2023, 6, 1⟩, ⟨2024, 6, 1⟩⟩]) := by
  have h : ∀ l ∈ [(⟨80, 10, 10, 10, 0, ⟨2023, 6, 1⟩, ⟨2024, 6, 1⟩⟩ : Loan)],
      0 ≤ l.emis_paid_on_time := by
    intro l hl
    rw [List.mem_singleton] at hl
    subst hl
    norm_num
  exact ⟨h, score_never_one_to_nine _ _ _ h⟩

/-- Counterexample for C5: at principal 0.01, rate 12% and tenure 1, the
installment for tenure 2 is not strictly smaller — both tenures yield 0.01
after rounding to 2 decimal places. -/
theorem installment_not_strictly_decreasing :
    (0 : ℚ) < 12 ∧ (1 : ℤ) ≤ 1 ∧
    ¬ (calculate_monthly_installment (1 / 100) 12 (1 + 1) <
        calculate_monthly_installment (1 / 100) 12 1) := by
  have h1 : calculate_monthly_installment (1 / 100) 12 1 = 1 / 100 := by
    norm_num [calculate_monthly_installment, quantize2, roundHalfEven]
  have h2 : calculate_monthly_installment (1 / 100) 12 (1 + 1) = 1 / 100 := by
    have ht : Int.toNat 2 = 2 := rfl
    norm_num [calculate_monthly_installment, quantize2, roundHalfEven, ht]
  refine ⟨by norm_num, le_refl 1, ?_⟩
  rw [h1, h2]
  exact lt_irrefl _

/-- C5 amended: for fixed principal ≥ 0 and rate > 0, increasing the tenure
never increases the installment (non-strict decrease; the unrounded EMI
strictly decreases, but rounding to 2 decimal places can make consecutive
tenures equal). -/
theorem installment_tenure_antitone (P rate : ℚ) (n : ℤ)
    (hP : 0 ≤ P) (hrate : 0 < rate) (hn : 1 ≤ n) :
    calculate_monthly_installment P rate (n + 1) ≤
      calculate_monthly_installment P rate n := by
  have hr : 0 < rate / 12 / 100 := by positivity
  have hr0 : ¬ (rate / 12 / 100 = 0) := ne_of_gt hr
  have hn0 : ¬ (n ≤ 0) := by omega
  have hn10 : ¬ (n + 1 ≤ 0) := by omega
  simp only [calculate_monthly_installment, if_neg hn0, if_neg hn10,
    if_neg hr0]
  have htn : (n + 1).toNat = n.toNat + 1 := by omega
  rw [htn]
  set r := rate / 12 / 100 with hrdef
  have hm : n.toNat ≠ 0 := by omega
  have ha : 1 < (1 + r) ^ n.toNat := one_lt_pow₀ (by linarith) hm
  have hb : (1 + r) ^ n.toNat ≤ (1 + r) ^ (n.toNat + 1) :=
    pow_le_pow_right₀ (by linarith) (by omega)
  apply quantize2_mono
  have ha1 : 0 < (1 + r) ^ n.toNat - 1 := by linarith
  have hb1 : 0 < (1 + r) ^ (n.toNat + 1) - 1 := by linarith
  rw [div_le_div_iff₀ hb1 ha1]
  nlinarith [mul_nonneg (mul_nonneg hP hr.le) (sub_nonneg.mpr hb)]

/-- Witness for the amended C5: principal 0.01, rate 12%, tenures 1 and 2. -/
theorem installment_tenure_antitone_witness :
    (0 : ℚ) ≤ 1 / 100 ∧ (0 : ℚ) < 12 ∧ (1 : ℤ) ≤ 1 ∧
    calculate_monthly_installment (1 / 100) 12 (1 + 1) ≤
      calculate_monthly_installment (1 / 100) 12 1 :=
  ⟨by norm_num, by norm_num, le_refl 1,
    installment_tenure_antitone (1 / 100) 12 1 (by norm_num) (by norm_num)
      (le_refl 1)⟩
